import Mathlib

/-!
Verification development for a Slack slash-command webhook bridge
(`app.py`): signature / legacy-token authentication, command parsing,
channel / project / passphrase guards, and job dispatch.

The Python source is shallowly embedded: module-level environment
configuration becomes an explicit `Config` record, the Flask request
becomes a `Request` record, and each Python function becomes a Lean
function of the same name.  Machine-level details that the claims do
not touch (float seconds from `time.time()`, the exact text of Python
exception messages) are noted at the definition they concern.
-/

namespace AppPy

/-! ## Python string primitives

`str.strip()` / `str.split()` with no arguments operate on Python's
notion of whitespace (`str.isspace`); the character set below covers
it (ASCII whitespace, the C1/separator controls and the Unicode space
separators). -/

/-- Characters Python's `str.isspace` recognises. -/
def isPySpace (c : Char) : Bool :=
  c = ' ' ∨ c = '\t' ∨ c = '\n' ∨ c = '\r' ∨
  c = '\x0b' ∨ c = '\x0c' ∨
  c = '\x1c' ∨ c = '\x1d' ∨ c = '\x1e' ∨ c = '\x1f' ∨
  c = '\x85' ∨ c = '\xa0' ∨ c = ' ' ∨
  (c.toNat ≥ 0x2000 ∧ c.toNat ≤ 0x200a) ∨
  c = ' ' ∨ c = ' ' ∨ c = ' ' ∨ c = ' ' ∨
  c = '　'

/-- List-level version of Python `str.strip()`. -/
def pyStripL (l : List Char) : List Char :=
  ((l.dropWhile isPySpace).reverse.dropWhile isPySpace).reverse

/-- Python `s.strip()` (no arguments: strips whitespace at both ends). -/
def pyStrip (s : String) : String :=
  ⟨pyStripL s.data⟩

/-- Helper for Python `s.split()`: accumulates the current token
(in reverse) and splits on runs of whitespace, discarding empties. -/
def pySplitAux : List Char → List Char → List String
  | [], acc => if acc.isEmpty then [] else [⟨acc.reverse⟩]
  | c :: rest, acc =>
    if isPySpace c then
      if acc.isEmpty then pySplitAux rest []
      else ⟨acc.reverse⟩ :: pySplitAux rest []
    else pySplitAux rest (c :: acc)

/-- Python `s.split()` with no separator: split on whitespace runs,
no empty tokens. -/
def pySplit (s : String) : List String :=
  pySplitAux s.data []

/-- Python `" ".join(parts)`. -/
def pyJoin : List String → String
  | [] => ""
  | [t] => t
  | t :: u :: ts => t ++ " " ++ pyJoin (u :: ts)

/-- Python `x or y` for a string `x` (empty string is falsy). -/
def pyOrStr (a b : String) : String :=
  if a = "" then b else a

/-- Python `x or y` where `x` is `None` or a string
(both `None` and `""` are falsy). -/
def pyOrS (a : Option String) (b : String) : String :=
  match a with
  | some s => if s = "" then b else s
  | none => b

/-- Truthiness of a `dict.get` / `headers.get` result
(`None` and `""` are falsy). -/
def truthyO : Option String → Bool
  | some s => s ≠ ""
  | none => false

/-- Python `int(s)` restricted to the syntax the claims exercise:
surrounding whitespace, an optional sign, then one or more ASCII
digits.  (CPython additionally accepts digit-group underscores and
non-ASCII digits; no claim involves those.)  `none` models the
`ValueError` that `int` raises on anything else. -/
def pyInt? (s : String) : Option Int :=
  let t := pyStrip s
  let core := t.data
  let signed : Bool × List Char :=
    match core with
    | '-' :: rest => (true, rest)
    | '+' :: rest => (false, rest)
    | l => (false, l)
  let digits := signed.2
  if digits ≠ [] ∧ digits.all (fun c => c.isDigit) then
    let n : Nat := digits.foldl (fun acc c => acc * 10 + (c.toNat - 48)) 0
    some (if signed.1 then -(n : Int) else (n : Int))
  else
    none

/-- Literal list containment: `p` occurs as a contiguous run at the
front of the second list. -/
def lpre : List Char → List Char → Bool
  | [], _ => true
  | _ :: _, [] => false
  | a :: as, b :: bs => a = b && lpre as bs

/-- Literal list containment: `p` occurs contiguously somewhere. -/
def loccurs (p : List Char) : List Char → Bool
  | [] => p.isEmpty
  | c :: rest => lpre p (c :: rest) || loccurs p rest

/-- Models `re.search(re.escape(pat), hay) is not None`: literal,
case-sensitive substring containment, no normalization. -/
def containsSubstr (hay pat : String) : Bool :=
  loccurs pat.data hay.data

/-! ## UTF-8 and HMAC-SHA256

The source calls `str.encode()` (UTF-8) and
`hmac.new(key, msg, hashlib.sha256).hexdigest()`.  Both are fully
specified deterministic functions; they are implemented here over
`Nat` bytes/words with explicit `% 2^32` arithmetic. -/

/-- UTF-8 encoding of one character (code point as `Nat`). -/
def utf8Char (c : Char) : List Nat :=
  let n := c.toNat
  if n < 0x80 then [n]
  else if n < 0x800 then
    [0xc0 + n / 0x40, 0x80 + n % 0x40]
  else if n < 0x10000 then
    [0xe0 + n / 0x1000, 0x80 + (n / 0x40) % 0x40, 0x80 + n % 0x40]
  else
    [0xf0 + n / 0x40000, 0x80 + (n / 0x1000) % 0x40,
     0x80 + (n / 0x40) % 0x40, 0x80 + n % 0x40]

/-- Python `s.encode()`: UTF-8 bytes of a string. -/
def utf8Bytes (s : String) : List Nat :=
  s.data.flatMap utf8Char

/-- Reduction modulo 2^32, the word size of SHA-256. -/
def u32 (n : Nat) : Nat := n % 4294967296

/-- Right rotation of a 32-bit word. -/
def rotr32 (r x : Nat) : Nat :=
  u32 ((x >>> r) ||| (x <<< (32 - r)))

/-- Bitwise complement of a 32-bit word. -/
def not32 (x : Nat) : Nat := Nat.xor x 4294967295

/-- SHA-256 choose function. -/
def shaCh (x y z : Nat) : Nat := Nat.xor (x &&& y) (not32 x &&& z)

/-- SHA-256 majority function. -/
def shaMaj (x y z : Nat) : Nat := Nat.xor (Nat.xor (x &&& y) (x &&& z)) (y &&& z)

/-- SHA-256 big sigma 0. -/
def bsig0 (x : Nat) : Nat := Nat.xor (Nat.xor (rotr32 2 x) (rotr32 13 x)) (rotr32 22 x)

/-- SHA-256 big sigma 1. -/
def bsig1 (x : Nat) : Nat := Nat.xor (Nat.xor (rotr32 6 x) (rotr32 11 x)) (rotr32 25 x)

/-- SHA-256 small sigma 0. -/
def ssig0 (x : Nat) : Nat := Nat.xor (Nat.xor (rotr32 7 x) (rotr32 18 x)) (x >>> 3)

/-- SHA-256 small sigma 1. -/
def ssig1 (x : Nat) : Nat := Nat.xor (Nat.xor (rotr32 17 x) (rotr32 19 x)) (x >>> 10)

/-- SHA-256 round constants. -/
def K256 : List Nat :=
  [1116352408, 1899447441, 3049323471, 3921009573, 961987163, 1508970993,
   2453635748, 2870763221, 3624381080, 310598401, 607225278, 1426881987,
   1925078388, 2162078206, 2614888103, 3248222580, 3835390401, 4022224774,
   264347078, 604807628, 770255983, 1249150122, 1555081692, 1996064986,
   2554220882, 2821834349, 2952996808, 3210313671, 3336571891, 3584528711,
   113926993, 338241895, 666307205, 773529912, 1294757372, 1396182291,
   1695183700, 1986661051, 2177026350, 2456956037, 2730485921, 2820302411,
   3259730800, 3345764771, 3516065817, 3600352804, 4094571909, 275423344,
   430227734, 506948616, 659060556, 883997877, 958139571, 1322822218,
   1537002063, 1747873779, 1955562222, 2024104815, 2227730452, 2361852424,
   2428436474, 2756734187, 3204031479, 3329325298]

/-- SHA-256 working state: eight 32-bit words. -/
structure H8 where
  a : Nat
  b : Nat
  c : Nat
  d : Nat
  e : Nat
  f : Nat
  g : Nat
  h : Nat
deriving Repr, DecidableEq

/-- SHA-256 initial hash value. -/
def sha256Init : H8 :=
  ⟨1779033703, 3144134277, 1013904242, 2773480762,
   1359893119, 2600822924, 528734635, 1541459225⟩

/-- One SHA-256 compression round, consuming one `(K, W)` pair. -/
def shaRound (st : H8) (kw : Nat × Nat) : H8 :=
  let t1 := u32 (st.h + bsig1 st.e + shaCh st.e st.f st.g + kw.1 + kw.2)
  let t2 := u32 (bsig0 st.a + shaMaj st.a st.b st.c)
  ⟨u32 (t1 + t2), st.a, st.b, st.c, u32 (st.d + t1), st.e, st.f, st.g⟩

/-- Componentwise addition of states modulo 2^32. -/
def add8 (x y : H8) : H8 :=
  ⟨u32 (x.a + y.a), u32 (x.b + y.b), u32 (x.c + y.c), u32 (x.d + y.d),
   u32 (x.e + y.e), u32 (x.f + y.f), u32 (x.g + y.g), u32 (x.h + y.h)⟩

/-- Extends a 16-word message-schedule window by `n` further words;
the window always holds the last 16 words. -/
def schedExt : Nat → List Nat → List Nat
  | 0, _ => []
  | n + 1, win =>
    let nxt := u32 (ssig1 (win.getD 14 0) + win.getD 9 0 +
                    ssig0 (win.getD 1 0) + win.getD 0 0)
    nxt :: schedExt n (win.tail ++ [nxt])

/-- Full 64-word message schedule from the 16 block words. -/
def sched64 (w16 : List Nat) : List Nat :=
  w16 ++ schedExt 48 w16

/-- Processes one 64-byte block (given as 16 words). -/
def shaBlock (hs : H8) (w16 : List Nat) : H8 :=
  add8 hs ((K256.zip (sched64 w16)).foldl shaRound hs)

/-- Big-endian 32-bit words from a byte list (length a multiple of 4). -/
def wordsOfBytes : List Nat → List Nat
  | b0 :: b1 :: b2 :: b3 :: rest =>
    (((b0 * 256 + b1) * 256 + b2) * 256 + b3) :: wordsOfBytes rest
  | _ => []

/-- Big-endian 8-byte encoding of a length in bits. -/
def bytesBE8 (n : Nat) : List Nat :=
  [u32 (n >>> 56) % 256, (n >>> 48) % 256, (n >>> 40) % 256, (n >>> 32) % 256,
   (n >>> 24) % 256, (n >>> 16) % 256, (n >>> 8) % 256, n % 256]

/-- SHA-256 message padding to a multiple of 64 bytes. -/
def sha256Pad (msg : List Nat) : List Nat :=
  msg ++ 0x80 :: List.replicate ((64 - ((msg.length + 9) % 64)) % 64) 0
      ++ bytesBE8 (8 * msg.length)

/-- Splits a padded message into 64-byte blocks (fuel = list length,
always sufficient since each step consumes 64 bytes). -/
def chunks64Aux : Nat → List Nat → List (List Nat)
  | 0, _ => []
  | _ + 1, [] => []
  | fuel + 1, l => l.take 64 :: chunks64Aux fuel (l.drop 64)

/-- The 64-byte blocks of a list. -/
def chunks64 (l : List Nat) : List (List Nat) :=
  chunks64Aux (l.length + 1) l

/-- SHA-256 of a byte list, as the final state. -/
def sha256Core (msg : List Nat) : H8 :=
  (chunks64 (sha256Pad msg)).foldl (fun hs blk => shaBlock hs (wordsOfBytes blk)) sha256Init

/-- Big-endian bytes of one 32-bit word. -/
def wordBytes (w : Nat) : List Nat :=
  [(w >>> 24) % 256, (w >>> 16) % 256, (w >>> 8) % 256, w % 256]

/-- SHA-256 digest as 32 bytes. -/
def sha256Bytes (msg : List Nat) : List Nat :=
  let s := sha256Core msg
  wordBytes s.a ++ wordBytes s.b ++ wordBytes s.c ++ wordBytes s.d ++
  wordBytes s.e ++ wordBytes s.f ++ wordBytes s.g ++ wordBytes s.h

/-- Lowercase hex character of a nibble. -/
def hexChar (n : Nat) : Char :=
  if n < 10 then Char.ofNat (48 + n) else Char.ofNat (87 + n)

/-- Lowercase hex string of a byte list. -/
def bytesToHex (l : List Nat) : String :=
  ⟨l.flatMap (fun b => [hexChar (b / 16), hexChar (b % 16)])⟩

/-- HMAC-SHA256 over byte lists (block size 64), digest bytes. -/
def hmacSha256 (key msg : List Nat) : List Nat :=
  let k := if key.length > 64 then sha256Bytes key else key
  let k0 := k ++ List.replicate (64 - k.length) 0
  let inner := sha256Bytes ((k0.map (fun b => Nat.xor b 0x36)) ++ msg)
  sha256Bytes ((k0.map (fun b => Nat.xor b 0x5c)) ++ inner)

/-- Models `hmac.new(key, msg, hashlib.sha256).hexdigest()`. -/
def hmacSha256Hex (key msg : List Nat) : String :=
  bytesToHex (hmacSha256 key msg)

/-! ## Data model

The module-level `os.getenv` configuration of `app.py` becomes an
explicit record, the relevant parts of the Flask `request` object
become `Form` / `Request` records. -/

/-- Process-wide configuration (the module-level environment variables
of `app.py`, already parsed: the allowlists are the comma-split lists,
`PASSPHRASE` is already stripped, `PASSPHRASE_BY_PJ` is the decoded
JSON object as an association list). -/
structure Config where
  PROJECT_ID : String
  REGION : String
  JOB_NAME_TEMPLATE : String
  SLACK_SIGNING_SECRET : String
  SLACK_VERIFICATION_TOKEN : String
  ALLOWLIST_PJS : List String
  PASSPHRASE : String
  PASSPHRASE_BY_PJ : List (String × String)
  CHANNEL_ALLOWLIST : List String
deriving Repr, DecidableEq

/-- Python `dict.get(k)` on the decoded `PASSPHRASE_BY_PJ` object. -/
def dictGet (m : List (String × String)) (k : String) : Option String :=
  (m.find? (fun p => p.1 = k)).map (fun p => p.2)

/-- Form fields of the webhook body (`request.form`); `none` models an
absent field, `some ""` an empty one. -/
structure Form where
  command : Option String
  text : Option String
  channel_id : Option String
  token : Option String
deriving Repr, DecidableEq

/-- The inbound request: the two Slack headers, the raw body decoded
as text (`request.get_data(as_text=True)`), the form, and a `token`
query-string argument (`request.values` consults `request.args`
before `request.form`). -/
structure Request where
  headerSignature : Option String
  headerTimestamp : Option String
  body : String
  form : Form
  argsToken : Option String
deriving Repr, DecidableEq

/-- Result of `verify_slack`: Python returns normally or raises; the
`err` string is the exception text (for the `int()` parse failure the
exact CPython message is abbreviated). -/
inductive VResult where
  | ok : VResult
  | err : String → VResult
deriving Repr, DecidableEq

/-! ## Embedded source functions -/

/-- Matches `re.fullmatch(r"pj[a-z0-9]+", pj)`: the whole string is
`pj` followed by one or more ASCII lowercase letters or digits. -/
def pjMatch (s : String) : Bool :=
  s.data.take 2 = ['p', 'j'] ∧ s.data.drop 2 ≠ [] ∧
  (s.data.drop 2).all (fun c => ('a' ≤ c ∧ c ≤ 'z') ∨ ('0' ≤ c ∧ c ≤ '9'))

/-- Embeds `parse_pj_and_text(form)` (app.py lines 44-63). -/
def parse_pj_and_text (form : Form) : String × String :=
  let command := pyStrip (form.command.getD "")
  if command ≠ "/gameprm" then
    ("", pyStrip (form.text.getD ""))
  else
    let text := pyStrip (form.text.getD "")
    if text = "" then ("", "")
    else
      let parts := pySplit text
      let pj := parts.headD ""
      let rest := if parts.length > 1 then pyStrip (pyJoin parts.tail) else ""
      if ¬ pjMatch pj then ("", text)
      else (pj, rest)

/-- Embeds `is_channel_allowed(form)` (app.py lines 66-70); `ch in
CHANNEL_ALLOWLIST` is `False` when the field is absent (`None`). -/
def is_channel_allowed (cfg : Config) (form : Form) : Bool :=
  if cfg.CHANNEL_ALLOWLIST.isEmpty then true
  else
    match form.channel_id with
    | some ch => cfg.CHANNEL_ALLOWLIST.contains ch
    | none => false

/-- Embeds `check_passphrase(pj, text)` (app.py lines 73-78):
`PASSPHRASE_BY_PJ.get(pj) or PASSPHRASE`, empty means pass, else
literal substring search. -/
def check_passphrase (cfg : Config) (pj text : String) : Bool :=
  let phrase := pyOrS (dictGet cfg.PASSPHRASE_BY_PJ pj) cfg.PASSPHRASE
  if phrase = "" then true
  else containsSubstr text phrase

/-- The signature the server recomputes:
`"v0=" + hmac.new(secret.encode(), f"v0:{ts}:{body}".encode(), hashlib.sha256).hexdigest()`. -/
def slack_my_sig (secret ts body : String) : String :=
  "v0=" ++ hmacSha256Hex (utf8Bytes secret) (utf8Bytes ("v0:" ++ ts ++ ":" ++ body))

/-- Whether the primary (signature) method applies: the condition of
`if sig and ts and SLACK_SIGNING_SECRET:` (app.py line 90). -/
def primary_applicable (cfg : Config) (req : Request) : Bool :=
  truthyO req.headerSignature && truthyO req.headerTimestamp &&
  cfg.SLACK_SIGNING_SECRET ≠ ""

/-- The token value the fallback compares:
`(req.form.get("token") or req.values.get("token") or "").strip()`;
`request.values` looks in `args` before `form`. -/
def submitted_token (req : Request) : String :=
  let valuesToken : Option String :=
    match req.argsToken with
    | some a => some a
    | none => req.form.token
  pyStrip (pyOrS req.form.token (pyOrS valuesToken ""))

/-- Embeds `verify_slack(req)` (app.py lines 81-105).  `now` stands
for `time.time()` (modelled at whole-second resolution; the skew
comparison `abs(now - int(ts)) > 60 * 5` is integer-exact at the
claims' boundary).  A raised exception becomes `VResult.err`. -/
def verify_slack (cfg : Config) (req : Request) (now : Int) : VResult :=
  if primary_applicable cfg req then
    let ts := req.headerTimestamp.getD ""
    match pyInt? ts with
    | none => .err "invalid literal for int()"
    | some t =>
      if (now - t).natAbs > 60 * 5 then .err "timestamp too old"
      else
        let my_sig := slack_my_sig cfg.SLACK_SIGNING_SECRET ts req.body
        if my_sig = req.headerSignature.getD "" then .ok
        else .err "signature mismatch"
  else
    let token := submitted_token req
    if cfg.SLACK_VERIFICATION_TOKEN ≠ "" ∧ token = cfg.SLACK_VERIFICATION_TOKEN then .ok
    else .err "no valid slack auth (missing headers or token mismatch)"

/-- The primary (Slack App signing) block of `verify_slack`
(app.py lines 90-98) as a standalone method. -/
def verify_signature_method (cfg : Config) (req : Request) (now : Int) : VResult :=
  let ts := req.headerTimestamp.getD ""
  match pyInt? ts with
  | none => .err "invalid literal for int()"
  | some t =>
    if (now - t).natAbs > 60 * 5 then .err "timestamp too old"
    else
      let my_sig := slack_my_sig cfg.SLACK_SIGNING_SECRET ts req.body
      if my_sig = req.headerSignature.getD "" then .ok
      else .err "signature mismatch"

/-- The fallback (legacy verification token) block of `verify_slack`
(app.py lines 101-105) as a standalone method. -/
def verify_legacy_method (cfg : Config) (req : Request) : VResult :=
  let token := submitted_token req
  if cfg.SLACK_VERIFICATION_TOKEN ≠ "" ∧ token = cfg.SLACK_VERIFICATION_TOKEN then .ok
  else .err "no valid slack auth (missing headers or token mismatch)"

/-- Observable behaviour of `run_job(pj)` (app.py lines 108-129):
the log lines printed and the URLs POSTed.  `status` / `respBody` are
the execution platform's response to the single POST; the function
performs no retry. -/
structure RunJobOut where
  logs : List String
  posts : List String
deriving Repr, DecidableEq

/-- The opening-brace character, by code point. -/
def lbrace : Char := Char.ofNat 123

/-- The closing-brace character, by code point. -/
def rbrace : Char := Char.ofNat 125

/-- Replaces every `pj` placeholder (brace, `p`, `j`, brace) in the
template by the value, character-list level. -/
def fmtPjL : List Char → List Char → List Char
  | a :: b :: c :: d :: rest, pv =>
    if a = lbrace ∧ b = 'p' ∧ c = 'j' ∧ d = rbrace then pv ++ fmtPjL rest pv
    else a :: fmtPjL (b :: c :: d :: rest) pv
  | c :: rest, pv => c :: fmtPjL rest pv
  | [], _ => []

/-- Models `JOB_NAME_TEMPLATE.format(pj=pj)` for templates whose only
placeholder is the project id (the configured templates; `str.format`
would raise on any other placeholder). -/
def pyFormatPj (template pjv : String) : String :=
  ⟨fmtPjL template.data pjv.data⟩

/-- The job-run URL `run_job` POSTs to (app.py lines 120-123). -/
def runJobUrl (cfg : Config) (pj : String) : String :=
  "https://" ++ cfg.REGION ++ "-run.googleapis.com/apis/run.googleapis.com/v1/namespaces/"
    ++ cfg.PROJECT_ID ++ "/jobs/" ++ pyFormatPj cfg.JOB_NAME_TEMPLATE pj ++ ":run"

/-- Embeds `run_job(pj)`: with no `PROJECT_ID` it aborts with an error
log and no HTTP call; otherwise it POSTs once to the job-run URL built
from the template (with `pj` substituted) and logs the status, adding
the response body to the log only when the status is 300 or above. -/
def run_job (cfg : Config) (pj : String) (status : Nat) (respBody : String) : RunJobOut :=
  if cfg.PROJECT_ID = "" then
    { logs := ["[ERROR] PROJECT_ID is empty; aborting run_job."], posts := [] }
  else
    let url := runJobUrl cfg pj
    { logs := ["[run_job] POST " ++ url ++ " -> " ++ toString status] ++
              (if status ≥ 300 then ["[run_job] Response: " ++ respBody] else []),
      posts := [url] }

/-- An HTTP response of the handler: body text and status code. -/
structure Response where
  body : String
  status : Nat
deriving Repr, DecidableEq

/-- Fixed response texts of `slack_handler`. -/
def authDenialText : String :=
  "署名検証エラー。Signing Secret と Request URL（/slack）を確認してください。"

/-- Denial text of the channel guard. -/
def channelDenialText : String := "このチャンネルでは実行できません。"

/-- Usage hint returned when no project id was parsed. -/
def usageText : String := "使い方: `/gameprm pjshin ローデータ完了`"

/-- Denial text of the project-membership guard. -/
def pjDenialText (pj : String) : String :=
  "許可されていない pj です: `" ++ pj ++ "`"

/-- Denial text of the passphrase guard. -/
def phraseDenialText (phrase : String) : String :=
  "愛言葉が違います。`" ++ phrase ++ "` を含めて送ってください。"

/-- The phrase shown in the passphrase denial
(`PASSPHRASE_BY_PJ.get(pj) or PASSPHRASE or "（未設定）"`). -/
def phraseFallback (cfg : Config) (pj : String) : String :=
  pyOrS (dictGet cfg.PASSPHRASE_BY_PJ pj) (pyOrStr cfg.PASSPHRASE "（未設定）")

/-- Acceptance text returned after the job thread is spawned. -/
def acceptText (pj : String) : String :=
  "✅ `" ++ pj ++ "` のジョブ起動リクエストを受け付けました。数分後に結果がSlackへ投稿されます。"

/-- Embeds `slack_handler()` (app.py lines 135-165).  The second
component records the background `run_job` threads spawned (their
`pj` argument): the handler starts the thread and returns the
acceptance text without waiting for (or seeing) its outcome. -/
def slack_handler (cfg : Config) (req : Request) (now : Int) : Response × List String :=
  match verify_slack cfg req now with
  | .err _ => ({ body := authDenialText, status := 200 }, [])
  | .ok =>
    if ¬ is_channel_allowed cfg req.form then
      ({ body := channelDenialText, status := 200 }, [])
    else
      let pr := parse_pj_and_text req.form
      let pj := pr.1
      let rest := pr.2
      if pj = "" then ({ body := usageText, status := 200 }, [])
      else if ¬ cfg.ALLOWLIST_PJS.isEmpty ∧ ¬ cfg.ALLOWLIST_PJS.contains pj then
        ({ body := pjDenialText pj, status := 200 }, [])
      else if ¬ check_passphrase cfg pj rest then
        ({ body := phraseDenialText (phraseFallback cfg pj), status := 200 }, [])
      else
        ({ body := acceptText pj, status := 200 }, [pj])

/-! ## Concrete fixtures used by witnesses and counterexamples -/

/-- A form with every field absent. -/
def emptyForm : Form :=
  { command := none, text := none, channel_id := none, token := none }

/-- Configuration with only a signing secret set. -/
def cfgSecretOnly : Config :=
  { PROJECT_ID := "", REGION := "", JOB_NAME_TEMPLATE := "",
    SLACK_SIGNING_SECRET := "s3cr3t", SLACK_VERIFICATION_TOKEN := "",
    ALLOWLIST_PJS := [], PASSPHRASE := "", PASSPHRASE_BY_PJ := [],
    CHANNEL_ALLOWLIST := [] }

/-- Request carrying an invalid signature over body `"hello"`. -/
def reqBadSig : Request :=
  { headerSignature := some "v0=0000", headerTimestamp := some "1000",
    body := "hello", form := emptyForm, argsToken := none }

/-- The correct signature for secret `"s3cr3t"`, timestamp `"1000"`,
body `"hello"`. -/
def sigGood : String := slack_my_sig "s3cr3t" "1000" "hello"

/-- Request carrying the correct signature. -/
def reqGoodSig : Request :=
  { headerSignature := some sigGood, headerTimestamp := some "1000",
    body := "hello", form := emptyForm, argsToken := none }

/-- `reqGoodSig` with one byte of the signature flipped. -/
def reqFlipSig : Request :=
  { reqGoodSig with headerSignature := some ("w" ++ sigGood.drop 1) }

/-- `reqGoodSig` with one byte of the body flipped. -/
def reqFlipBody : Request :=
  { reqGoodSig with body := "hellp" }

/-- `reqGoodSig` with one byte of the timestamp flipped (still within
the 300-second window of `now = 1000`). -/
def reqFlipTs : Request :=
  { reqGoodSig with headerTimestamp := some "1001" }

/-- Request whose timestamp `"400"` is 600 seconds before `now = 1000`
but whose signature is the correct one for its own timestamp and body. -/
def reqStale : Request :=
  { headerSignature := some (slack_my_sig "s3cr3t" "400" "hello"),
    headerTimestamp := some "400", body := "hello",
    form := emptyForm, argsToken := none }

/-- Configuration with only the legacy token `"tok"` set. -/
def cfgLegacyTok : Config :=
  { cfgSecretOnly with SLACK_SIGNING_SECRET := "", SLACK_VERIFICATION_TOKEN := "tok" }

/-- Headerless request submitting the token field `" tok "` (whitespace
around the configured value). -/
def reqPaddedTok : Request :=
  { headerSignature := none, headerTimestamp := none, body := "",
    form := { emptyForm with token := some " tok " }, argsToken := none }

/-- A primary-applicable request with a garbage signature, used to show
the primary branch ignores the token field. -/
def reqPrimTok : Request :=
  { headerSignature := some "v0=x", headerTimestamp := some "5",
    body := "b", form := { emptyForm with token := some "aaa" }, argsToken := none }

/-- Configuration with no authentication at all. -/
def cfgNoAuth : Config :=
  { cfgSecretOnly with SLACK_SIGNING_SECRET := "" }

/-- Headerless request submitting an empty token field. -/
def reqEmptyTok : Request :=
  { headerSignature := none, headerTimestamp := none, body := "",
    form := { emptyForm with token := some "" }, argsToken := none }

/-- Form for the parser counterexample: text has surrounding whitespace
and an unrecognized first token. -/
def formPadded : Form :=
  { command := some "/gameprm", text := some " notpj hello ",
    channel_id := none, token := none }

/-- Form for the parser example from the spec. -/
def formPjshin : Form :=
  { command := some "/gameprm", text := some "pjshin ローデータ完了",
    channel_id := none, token := none }

/-- Passphrase configuration of the C6 scenario: per-project phrase
`"ready"` for `"pjshin"`, global phrase `"ローデータ完了"`. -/
def cfgPhrases : Config :=
  { cfgSecretOnly with
    SLACK_SIGNING_SECRET := "",
    PASSPHRASE := "ローデータ完了", PASSPHRASE_BY_PJ := [("pjshin", "ready")] }

/-- Passphrase configuration with an empty per-project entry for
`"pjx"` and global phrase `"go"`. -/
def cfgEmptyEntry : Config :=
  { cfgSecretOnly with
    SLACK_SIGNING_SECRET := "",
    PASSPHRASE := "go", PASSPHRASE_BY_PJ := [("pjx", "")] }

/-- Guard configuration: channel allowlist `["C1"]`, project allowlist
`["pjshin"]`, legacy token `"t"`. -/
def cfgGuards : Config :=
  { cfgSecretOnly with
    SLACK_VERIFICATION_TOKEN := "t", SLACK_SIGNING_SECRET := "",
    ALLOWLIST_PJS := ["pjshin"], CHANNEL_ALLOWLIST := ["C1"] }

/-- Request on the allowlisted channel for the allowlisted project. -/
def reqGuardOk : Request :=
  { headerSignature := none, headerTimestamp := none, body := "",
    form := { command := some "/gameprm", text := some "pjshin go",
              channel_id := some "C1", token := some "t" },
    argsToken := none }

/-- Request on the allowlisted channel for a project outside the
allowlist. -/
def reqGuardBadPj : Request :=
  { reqGuardOk with
    form := { reqGuardOk.form with text := some "pjother go" } }

/-- Dispatch configuration: project namespace, region and template set,
legacy token `"t"`, no guards. -/
def cfgDispatch : Config :=
  { PROJECT_ID := "proj", REGION := "r1", JOB_NAME_TEMPLATE := "job-{pj}-daily",
    SLACK_SIGNING_SECRET := "", SLACK_VERIFICATION_TOKEN := "t",
    ALLOWLIST_PJS := [], PASSPHRASE := "", PASSPHRASE_BY_PJ := [],
    CHANNEL_ALLOWLIST := [] }

/-- Fully authorized dispatch request for project `pjshin`. -/
def reqDispatch : Request :=
  { headerSignature := none, headerTimestamp := none, body := "",
    form := { command := some "/gameprm", text := some "pjshin go",
              channel_id := some "C", token := some "t" },
    argsToken := none }

/-! ## Helper lemmas on the Python string primitives -/

/-- Tokens produced by `pySplitAux` are nonempty and whitespace-free,
provided the accumulator is. -/
theorem pySplitAux_sound (l : List Char) : ∀ (acc : List Char),
    (∀ c ∈ acc, isPySpace c = false) →
    ∀ t ∈ pySplitAux l acc, t.data ≠ [] ∧ ∀ c ∈ t.data, isPySpace c = false := by
  induction l with
  | nil =>
    intro acc hacc t ht
    unfold pySplitAux at ht
    by_cases ha : acc.isEmpty
    · simp [ha] at ht
    · simp [ha] at ht
      subst ht
      refine ⟨?_, ?_⟩
      · simpa [List.isEmpty_iff] using ha
      · intro c hc
        exact hacc c (by simpa using hc)
  | cons c rest ih =>
    intro acc hacc t ht
    unfold pySplitAux at ht
    by_cases hc : isPySpace c
    · simp only [hc, if_true] at ht
      by_cases ha : acc.isEmpty
      · simp only [ha, if_true] at ht
        exact ih [] (by simp) t ht
      · simp only [ha, if_false] at ht
        rcases List.mem_cons.mp ht with h1 | h2
        · subst h1
          refine ⟨?_, ?_⟩
          · simpa [List.isEmpty_iff] using ha
          · intro x hx
            exact hacc x (by simpa using hx)
        · exact ih [] (by simp) t h2
    · simp only [hc, if_false] at ht
      refine ih (c :: acc) ?_ t ht
      intro x hx
      rcases List.mem_cons.mp hx with h1 | h2
      · subst h1; simpa using hc
      · exact hacc x h2

/-- Tokens of `pySplit` are nonempty and whitespace-free. -/
theorem pySplit_sound (s : String) :
    ∀ t ∈ pySplit s, t.data ≠ [] ∧ ∀ c ∈ t.data, isPySpace c = false :=
  pySplitAux_sound s.data [] (by simp)

/-- `dropWhile` is the identity when the head does not satisfy the
predicate. -/
theorem dropWhile_eq_self (p : Char → Bool) (l : List Char)
    (h : ∀ c, l.head? = some c → p c = false) : l.dropWhile p = l := by
  cases l with
  | nil => rfl
  | cons a l => simp [List.dropWhile_cons, h a rfl]

/-- Stripping is the identity on a list whose two ends are not
whitespace. -/
theorem pyStripL_eq_self (l : List Char)
    (h1 : ∀ c, l.head? = some c → isPySpace c = false)
    (h2 : ∀ c, l.getLast? = some c → isPySpace c = false) :
    pyStripL l = l := by
  unfold pyStripL
  rw [dropWhile_eq_self _ _ h1, dropWhile_eq_self, List.reverse_reverse]
  intro c hc
  rw [List.head?_reverse] at hc
  exact h2 c hc

/-- Data of `pyJoin` on a two-or-more list. -/
theorem pyJoin_data_cons (t u : String) (ts : List String) :
    (pyJoin (t :: u :: ts)).data = t.data ++ ' ' :: (pyJoin (u :: ts)).data := by
  show (t ++ " " ++ pyJoin (u :: ts)).data = _
  simp [String.data_append]

/-- A join of nonempty tokens is nonempty. -/
theorem pyJoin_ne_nil (toks : List String) (hne : toks ≠ [])
    (h : ∀ t ∈ toks, t.data ≠ []) : (pyJoin toks).data ≠ [] := by
  cases toks with
  | nil => exact absurd rfl hne
  | cons t ts =>
    cases ts with
    | nil => exact h t (by simp)
    | cons u ts' =>
      rw [pyJoin_data_cons]
      simp [h t (by simp)]

/-- The first character of a join of good tokens is not whitespace. -/
theorem pyJoin_head (toks : List String)
    (h : ∀ t ∈ toks, t.data ≠ [] ∧ ∀ c ∈ t.data, isPySpace c = false)
    (hne : toks ≠ []) :
    ∀ c, (pyJoin toks).data.head? = some c → isPySpace c = false := by
  cases toks with
  | nil => exact absurd rfl hne
  | cons t ts =>
    have ht := h t (by simp)
    have hd : ∀ c, t.data.head? = some c → isPySpace c = false := by
      intro c hc
      exact ht.2 c (by
        cases ht' : t.data with
        | nil => simp [ht'] at hc
        | cons a l =>
          rw [ht'] at hc
          simp at hc
          subst hc
          simp [ht'])
    cases ts with
    | nil => exact hd
    | cons u ts' =>
      intro c hc
      rw [pyJoin_data_cons, List.head?_append_of_ne_nil _ ht.1] at hc
      exact hd c hc

/-- The last character of a join of good tokens is not whitespace. -/
theorem pyJoin_last (toks : List String)
    (h : ∀ t ∈ toks, t.data ≠ [] ∧ ∀ c ∈ t.data, isPySpace c = false)
    (hne : toks ≠ []) :
    ∀ c, (pyJoin toks).data.getLast? = some c → isPySpace c = false := by
  induction toks with
  | nil => exact absurd rfl hne
  | cons t ts ih =>
    have ht := h t (by simp)
    cases ts with
    | nil =>
      intro c hc
      refine ht.2 c ?_
      obtain ⟨hne', heq⟩ := List.mem_getLast?_eq_getLast (Option.mem_def.mpr hc)
      rw [heq]
      exact List.getLast_mem hne'
    | cons u ts' =>
      intro c hc
      have hrest : (pyJoin (u :: ts')).data ≠ [] :=
        pyJoin_ne_nil (u :: ts') (by simp) (fun x hx => (h x (List.mem_cons_of_mem _ hx)).1)
      rw [pyJoin_data_cons, List.getLast?_append_cons] at hc
      obtain ⟨r, rs, hr⟩ := List.exists_cons_of_ne_nil hrest
      rw [hr, List.getLast?_cons_cons, ← hr] at hc
      exact ih (fun x hx => h x (List.mem_cons_of_mem _ hx)) (by simp) c hc

/-- Stripping a single-space join of whitespace-free nonempty tokens
changes nothing. -/
theorem pyStrip_pyJoin (toks : List String)
    (h : ∀ t ∈ toks, t.data ≠ [] ∧ ∀ c ∈ t.data, isPySpace c = false)
    (hne : toks ≠ []) :
    pyStrip (pyJoin toks) = pyJoin toks := by
  show (⟨pyStripL (pyJoin toks).data⟩ : String) = pyJoin toks
  rw [pyStripL_eq_self _ (pyJoin_head toks h hne) (pyJoin_last toks h hne)]

/-! ## Claim theorems -/

/-- C6: the passphrase guard resolves the effective phrase as the
per-project mapping entry, else the global passphrase; an empty
effective phrase passes unconditionally, and a nonempty one passes
exactly when the remainder contains it as a literal, case-sensitive,
unnormalized substring (`containsSubstr` is plain character-list
containment).  A nonempty per-project entry decides alone — the global
phrase is irrelevant — and with no entry the global phrase decides. -/
theorem check_passphrase_c6 (cfg : Config) (pj text : String) :
    (check_passphrase cfg pj text = true ↔
      (pyOrS (dictGet cfg.PASSPHRASE_BY_PJ pj) cfg.PASSPHRASE = "" ∨
       containsSubstr text (pyOrS (dictGet cfg.PASSPHRASE_BY_PJ pj) cfg.PASSPHRASE) = true)) ∧
    (∀ p, dictGet cfg.PASSPHRASE_BY_PJ pj = some p → p ≠ "" →
      (check_passphrase cfg pj text = true ↔ containsSubstr text p = true)) ∧
    (dictGet cfg.PASSPHRASE_BY_PJ pj = none → cfg.PASSPHRASE ≠ "" →
      (check_passphrase cfg pj text = true ↔ containsSubstr text cfg.PASSPHRASE = true)) := by
  refine ⟨?_, ?_, ?_⟩
  · by_cases h : pyOrS (dictGet cfg.PASSPHRASE_BY_PJ pj) cfg.PASSPHRASE = "" <;>
      simp [check_passphrase, h]
  · intro p hp hp0
    simp [check_passphrase, pyOrS, hp, hp0]
  · intro hp hg
    simp [check_passphrase, pyOrS, hp, hg]

/-- Witness for C6, the spec scenario: per-project `"ready"` for
`pjshin` with global `"ローデータ完了"`.  A pjshin remainder containing
`"ready"` passes, the global phrase does not help pjshin, other
projects need the global phrase, and matching is case-sensitive. -/
theorem check_passphrase_c6_witness :
    check_passphrase cfgPhrases "pjshin" "go ready now" = true ∧
    check_passphrase cfgPhrases "pjshin" "ローデータ完了" = false ∧
    check_passphrase cfgPhrases "pjother" "ready" = false ∧
    check_passphrase cfgPhrases "pjother" "本日ローデータ完了です" = true ∧
    check_passphrase cfgPhrases "pjshin" "Ready" = false := by
  have h1 := check_passphrase_c6 cfgPhrases "pjshin" "go ready now"
  have h2 := check_passphrase_c6 cfgPhrases "pjshin" "ローデータ完了"
  have h3 := check_passphrase_c6 cfgPhrases "pjother" "ready"
  have h4 := check_passphrase_c6 cfgPhrases "pjother" "本日ローデータ完了です"
  have h5 := check_passphrase_c6 cfgPhrases "pjshin" "Ready"
  refine ⟨(h1.2.1 "ready" (by decide) (by decide)).mpr (by decide), ?_, ?_, ?_, ?_⟩
  · have hiff := h2.2.1 "ready" (by decide) (by decide)
    have : ¬ containsSubstr "ローデータ完了" "ready" = true := by decide
    exact Bool.eq_false_iff.mpr (fun hc => this (hiff.mp hc))
  · have hiff := h3.2.2 (by decide) (by decide)
    have : ¬ containsSubstr "ready" "ローデータ完了" = true := by decide
    exact Bool.eq_false_iff.mpr (fun hc => this (hiff.mp hc))
  · exact (h4.2.2 (by decide) (by decide)).mpr (by decide)
  · have hiff := h5.2.1 "ready" (by decide) (by decide)
    have : ¬ containsSubstr "Ready" "ready" = true := by decide
    exact Bool.eq_false_iff.mpr (fun hc => this (hiff.mp hc))

/-- C9: a per-project mapping entry that is the empty string (the only
falsy string) is not an override: `get(pj) or PASSPHRASE` falls back to
the global phrase, so the guard behaves exactly as if the project had
no entry — and the project is still gated by a configured global
phrase. -/
theorem check_passphrase_c9 (cfg : Config) (pj text : String)
    (h : dictGet cfg.PASSPHRASE_BY_PJ pj = some "") :
    check_passphrase cfg pj text = true ↔
      (cfg.PASSPHRASE = "" ∨ containsSubstr text cfg.PASSPHRASE = true) := by
  by_cases hg : cfg.PASSPHRASE = "" <;> simp [check_passphrase, pyOrS, h, hg]

/-- Witness for C9: with entry `("pjx", "")` and global `"go"`, a pjx
remainder without `"go"` is rejected and one with `"go"` passes. -/
theorem check_passphrase_c9_witness :
    dictGet cfgEmptyEntry.PASSPHRASE_BY_PJ "pjx" = some "" ∧
    check_passphrase cfgEmptyEntry "pjx" "nothing here" = false ∧
    check_passphrase cfgEmptyEntry "pjx" "go time" = true := by
  have h1 := check_passphrase_c9 cfgEmptyEntry "pjx" "nothing here" (by decide)
  have h2 := check_passphrase_c9 cfgEmptyEntry "pjx" "go time" (by decide)
  refine ⟨by decide, ?_, h2.mpr (by decide)⟩
  have : ¬ (cfgEmptyEntry.PASSPHRASE = "" ∨
      containsSubstr "nothing here" cfgEmptyEntry.PASSPHRASE = true) := by decide
  exact Bool.eq_false_iff.mpr (fun hc => this (h1.mp hc))

/-- C10: with no configured legacy verification token (empty string)
and the signature path inapplicable, `verify_slack` raises for every
request: the guard `SLACK_VERIFICATION_TOKEN and token == ...` is
short-circuited by the falsy empty token, so an empty submitted token
is not accepted by vacuous equality. -/
theorem verify_slack_c10 (cfg : Config) (req : Request) (now : Int)
    (htok : cfg.SLACK_VERIFICATION_TOKEN = "")
    (hpri : primary_applicable cfg req = false) :
    verify_slack cfg req now =
      .err "no valid slack auth (missing headers or token mismatch)" := by
  simp [verify_slack, hpri, htok]

/-- Witness for C10: no configured auth at all and an empty submitted
token field; the request is rejected. -/
theorem verify_slack_c10_witness :
    reqEmptyTok.form.token = some "" ∧
    cfgNoAuth.SLACK_VERIFICATION_TOKEN = "" ∧
    verify_slack cfgNoAuth reqEmptyTok 0 =
      .err "no valid slack auth (missing headers or token mismatch)" :=
  ⟨rfl, rfl, verify_slack_c10 cfgNoAuth reqEmptyTok 0 rfl (by decide)⟩

/-- Counterexample to C4 as stated: the fallback does not require
exact equality between the submitted token field and the configured
token — the code strips surrounding whitespace first.  With configured
token `"tok"` and submitted field `" tok "`, authentication succeeds
although the two strings differ. -/
theorem verify_slack_c4_counterexample :
    verify_slack cfgLegacyTok reqPaddedTok 0 = .ok ∧
    reqPaddedTok.form.token = some " tok " ∧
    cfgLegacyTok.SLACK_VERIFICATION_TOKEN = "tok" ∧
    (" tok " : String) ≠ "tok" := by
  refine ⟨by decide, rfl, rfl, by decide⟩

/-- C4 (amended): for every request exactly one method is evaluated —
the signature method exactly when both headers are present (non-empty)
and a signing secret is configured, the legacy-token fallback
otherwise.  The fallback succeeds exactly when the configured token is
non-empty and equals the whitespace-stripped submitted token field.
The primary branch never consults the token field, and the fallback
result depends only on the token fields (not on signature headers or
body). -/
theorem verify_slack_c4 (cfg : Config) (req : Request) (now : Int) :
    (verify_slack cfg req now =
      if primary_applicable cfg req then verify_signature_method cfg req now
      else verify_legacy_method cfg req) ∧
    (verify_legacy_method cfg req = .ok ↔
      (cfg.SLACK_VERIFICATION_TOKEN ≠ "" ∧
       submitted_token req = cfg.SLACK_VERIFICATION_TOKEN)) ∧
    (∀ tok args, primary_applicable cfg req = true →
      verify_slack cfg
        { req with form := { req.form with token := tok }, argsToken := args } now =
      verify_slack cfg req now) ∧
    (∀ req2, primary_applicable cfg req = false → primary_applicable cfg req2 = false →
      req2.form.token = req.form.token → req2.argsToken = req.argsToken →
      verify_slack cfg req2 now = verify_slack cfg req now) := by
  refine ⟨?_, ?_, ?_, ?_⟩
  · by_cases h : primary_applicable cfg req <;>
      simp [verify_slack, verify_signature_method, verify_legacy_method, h]
  · by_cases h : cfg.SLACK_VERIFICATION_TOKEN ≠ "" ∧
        submitted_token req = cfg.SLACK_VERIFICATION_TOKEN <;>
      simp_all [verify_legacy_method]
  · intro tok args hpri
    have hpri' : primary_applicable cfg
        { req with form := { req.form with token := tok }, argsToken := args } = true := hpri
    simp [verify_slack, hpri, hpri']
  · intro req2 hp1 hp2 het hea
    have hsub : submitted_token req2 = submitted_token req := by
      simp [submitted_token, het, hea]
    simp [verify_slack, hp1, hp2, verify_legacy_method, hsub]

/-- Witness for C4: the primary branch gives the same verdict whatever
token is submitted, and the fallback accepts the matching stripped
token. -/
theorem verify_slack_c4_witness :
    verify_slack cfgSecretOnly { reqPrimTok with form := { reqPrimTok.form with token := some "zzz" }, argsToken := none } 5 =
      verify_slack cfgSecretOnly reqPrimTok 5 ∧
    verify_legacy_method cfgLegacyTok reqPaddedTok = .ok := by
  refine ⟨?_, ?_⟩
  · exact (verify_slack_c4 cfgSecretOnly reqPrimTok 5).2.2.1 (some "zzz") none (by decide)
  · exact (verify_slack_c4 cfgLegacyTok reqPaddedTok 0).2.1.mpr ⟨by decide, by decide⟩

/-- C7: the channel guard passes unconditionally when the allowed set
is empty, and with a non-empty set passes exactly on membership of the
request's channel id; the project-membership guard in the handler
likewise lets every parsed project through when the project allowlist
is empty and rejects a non-member of a non-empty allowlist with the
project denial text (issuing no trigger), otherwise proceeding to the
passphrase stage. -/
theorem guards_c7 (cfg : Config) (req : Request) (now : Int) :
    (cfg.CHANNEL_ALLOWLIST = [] → is_channel_allowed cfg req.form = true) ∧
    (cfg.CHANNEL_ALLOWLIST ≠ [] →
      (is_channel_allowed cfg req.form = true ↔
        ∃ ch, req.form.channel_id = some ch ∧ ch ∈ cfg.CHANNEL_ALLOWLIST)) ∧
    (∀ pj rest, verify_slack cfg req now = .ok →
      is_channel_allowed cfg req.form = true →
      parse_pj_and_text req.form = (pj, rest) → pj ≠ "" →
      ((cfg.ALLOWLIST_PJS ≠ [] → pj ∉ cfg.ALLOWLIST_PJS →
        slack_handler cfg req now = ({ body := pjDenialText pj, status := 200 }, [])) ∧
       ((cfg.ALLOWLIST_PJS = [] ∨ pj ∈ cfg.ALLOWLIST_PJS) →
        slack_handler cfg req now =
          (if check_passphrase cfg pj rest then
            ({ body := acceptText pj, status := 200 }, [pj])
           else
            ({ body := phraseDenialText (phraseFallback cfg pj), status := 200 }, []))))) := by
  refine ⟨?_, ?_, ?_⟩
  · intro h
    simp [is_channel_allowed, h]
  · intro h
    cases hch : req.form.channel_id with
    | none => simp [is_channel_allowed, hch, List.isEmpty_iff, h]
    | some ch => simp [is_channel_allowed, hch, List.isEmpty_iff, h]
  · intro pj rest hok hch hparse hpj
    have hne : ¬ pj = "" := hpj
    constructor
    · intro hli hmem
      simp [slack_handler, hok, hch, hparse, hne, List.isEmpty_iff, hli, hmem]
    · intro hmem
      rcases hmem with hli | hmem
      · by_cases hcp : check_passphrase cfg pj rest <;>
          simp [slack_handler, hok, hch, hparse, hne, hli, hcp]
      · by_cases hcp : check_passphrase cfg pj rest <;>
          simp [slack_handler, hok, hch, hparse, hne, List.isEmpty_iff, hmem, hcp]

/-- Witness for C7: on the guard configuration the allowlisted channel
passes, a non-allowlisted parsed project is denied with no trigger, and
the allowlisted project is dispatched. -/
theorem guards_c7_witness :
    is_channel_allowed cfgGuards reqGuardOk.form = true ∧
    slack_handler cfgGuards reqGuardBadPj 0 =
      ({ body := pjDenialText "pjother", status := 200 }, []) ∧
    slack_handler cfgGuards reqGuardOk 0 =
      ({ body := acceptText "pjshin", status := 200 }, ["pjshin"]) := by
  have hch : is_channel_allowed cfgGuards reqGuardOk.form = true :=
    ((guards_c7 cfgGuards reqGuardOk 0).2.1 (by decide)).mpr ⟨"C1", rfl, by decide⟩
  refine ⟨hch, ?_, ?_⟩
  · have h := ((guards_c7 cfgGuards reqGuardBadPj 0).2.2 "pjother" "go"
      (by decide) (by decide) (by decide) (by decide)).1 (by decide) (by decide)
    exact h
  · have h := ((guards_c7 cfgGuards reqGuardOk 0).2.2 "pjshin" "go"
      (by decide) hch (by decide) (by decide)).2 (Or.inr (by decide))
    simpa using h

/-- C1: every request to `/slack` is answered with HTTP status 200 and
one of the handler's fixed plain-text bodies (auth denial, channel
denial, usage hint, project denial, passphrase denial, or acceptance);
when authentication fails — e.g. on an invalid signature — the body is
the denial text and zero job triggers are spawned. -/
theorem slack_handler_c1 (cfg : Config) (req : Request) (now : Int) :
    ((slack_handler cfg req now).1.status = 200) ∧
    ((slack_handler cfg req now).1.body = authDenialText ∨
     (slack_handler cfg req now).1.body = channelDenialText ∨
     (slack_handler cfg req now).1.body = usageText ∨
     (∃ pj, (slack_handler cfg req now).1.body = pjDenialText pj) ∨
     (∃ p, (slack_handler cfg req now).1.body = phraseDenialText p) ∨
     (∃ pj, (slack_handler cfg req now).1.body = acceptText pj)) ∧
    (∀ e, verify_slack cfg req now = .err e →
      slack_handler cfg req now = ({ body := authDenialText, status := 200 }, [])) := by
  refine ⟨?_, ?_, ?_⟩
  · rcases hv : verify_slack cfg req now with _ | e
    · simp only [slack_handler, hv]
      split_ifs <;> rfl
    · simp only [slack_handler, hv]
  · rcases hv : verify_slack cfg req now with _ | e
    · simp only [slack_handler, hv]
      split_ifs <;>
        first
          | exact Or.inr (Or.inl rfl)
          | exact Or.inr (Or.inr (Or.inl rfl))
          | exact Or.inr (Or.inr (Or.inr (Or.inl ⟨_, rfl⟩)))
          | exact Or.inr (Or.inr (Or.inr (Or.inr (Or.inl ⟨_, rfl⟩))))
          | exact Or.inr (Or.inr (Or.inr (Or.inr (Or.inr ⟨_, rfl⟩))))
    · simp [slack_handler, hv]
  · intro e he
    simp [slack_handler, he]

set_option maxRecDepth 100000 in
/-- Witness for C1: a request with an invalid signature gets the 200
denial response and no trigger is spawned. -/
theorem slack_handler_c1_witness :
    slack_handler cfgSecretOnly reqBadSig 1000 =
      ({ body := authDenialText, status := 200 }, []) :=
  (slack_handler_c1 cfgSecretOnly reqBadSig 1000).2.2 "signature mismatch" (by decide)

/-- C3: under the signature method a timestamp differing from current
time by more than 300 seconds is rejected with the staleness error for
every provided signature — the signature is never compared — so the
replay check precedes and is independent of signature comparison. -/
theorem verify_slack_c3 (cfg : Config) (req : Request) (now : Int)
    (sig ts : String) (t : Int)
    (hsig : req.headerSignature = some sig) (hsig0 : sig ≠ "")
    (hts : req.headerTimestamp = some ts) (hts0 : ts ≠ "")
    (hsec : cfg.SLACK_SIGNING_SECRET ≠ "")
    (hparse : pyInt? ts = some t)
    (hskew : (now - t).natAbs > 300) :
    verify_slack cfg req now = .err "timestamp too old" := by
  have hpa : primary_applicable cfg req = true := by
    simp [primary_applicable, truthyO, hsig, hts, hsig0, hts0, hsec]
  simp [verify_slack, hpa, hts, hparse, hskew]

set_option maxRecDepth 100000 in
/-- Witness for C3: timestamp `"400"` at current time 1000 is rejected
as stale even though the attached signature is the correct one for that
timestamp and body. -/
theorem verify_slack_c3_witness :
    reqStale.headerTimestamp = some "400" ∧
    reqStale.headerSignature = some (slack_my_sig "s3cr3t" "400" "hello") ∧
    verify_slack cfgSecretOnly reqStale 1000 = .err "timestamp too old" :=
  ⟨rfl, rfl,
   verify_slack_c3 cfgSecretOnly reqStale 1000
     (slack_my_sig "s3cr3t" "400" "hello") "400" 400
     rfl (by decide) rfl (by decide) (by decide) (by decide) (by decide)⟩

/-- C2: with both headers present (non-empty) and a signing secret
configured, verification accepts exactly when the timestamp parses,
lies within 300 seconds of current time, and the provided signature
equals `"v0=" ++` the hex HMAC-SHA256 of `v0:{timestamp}:{raw_body}`
under the secret.  Hence the signature computed with the correct
secret verifies, any altered signature fails, and altering the body or
timestamp fails exactly when it changes the recomputed keyed hash
(concrete one-byte flips are checked in the witness; `compare_digest`
constant-time behaviour is a timing property, modelled as equality). -/
theorem verify_slack_c2 (cfg : Config) (req : Request) (now : Int)
    (sig ts : String)
    (hsig : req.headerSignature = some sig) (hsig0 : sig ≠ "")
    (hts : req.headerTimestamp = some ts) (hts0 : ts ≠ "")
    (hsec : cfg.SLACK_SIGNING_SECRET ≠ "") :
    verify_slack cfg req now = .ok ↔
      ∃ t, pyInt? ts = some t ∧ (now - t).natAbs ≤ 300 ∧
        sig = slack_my_sig cfg.SLACK_SIGNING_SECRET ts req.body := by
  have hpa : primary_applicable cfg req = true := by
    simp [primary_applicable, truthyO, hsig, hts, hsig0, hts0, hsec]
  rcases hp : pyInt? ts with _ | t
  · have hls : verify_slack cfg req now = .err "invalid literal for int()" := by
      simp [verify_slack, hpa, hts, hp]
    rw [hls]
    constructor
    · intro h
      exact VResult.noConfusion h
    · rintro ⟨t', ht', _, _⟩
      exact Option.noConfusion ht'
  · by_cases hsk : (now - t).natAbs > 60 * 5
    · have hls : verify_slack cfg req now = .err "timestamp too old" := by
        simp [verify_slack, hpa, hts, hp, hsk]
      rw [hls]
      constructor
      · intro h
        exact VResult.noConfusion h
      · rintro ⟨t', ht', hle, _⟩
        rw [Option.some_inj] at ht'
        subst ht'
        omega
    · by_cases hmy : slack_my_sig cfg.SLACK_SIGNING_SECRET ts req.body = sig
      · have hls : verify_slack cfg req now = .ok := by
          simp [verify_slack, hpa, hts, hsig, hp, hsk, hmy]
        rw [hls]
        constructor
        · intro _
          exact ⟨t, rfl, by omega, hmy.symm⟩
        · intro _
          rfl
      · have hls : verify_slack cfg req now = .err "signature mismatch" := by
          simp [verify_slack, hpa, hts, hsig, hp, hsk, hmy]
        rw [hls]
        constructor
        · intro h
          exact VResult.noConfusion h
        · rintro ⟨t', ht', _, hs⟩
          exact absurd hs.symm hmy

set_option maxRecDepth 1000000 in
set_option maxHeartbeats 2000000 in
/-- Witness for C2: the correct signature over `"hello"` at a fresh
timestamp verifies; flipping one byte of the signature, of the body, or
of the timestamp each makes verification fail. -/
theorem verify_slack_c2_witness :
    verify_slack cfgSecretOnly reqGoodSig 1000 = .ok ∧
    verify_slack cfgSecretOnly reqFlipSig 1000 ≠ .ok ∧
    verify_slack cfgSecretOnly reqFlipBody 1000 ≠ .ok ∧
    verify_slack cfgSecretOnly reqFlipTs 1000 ≠ .ok := by
  refine ⟨?_, ?_, ?_, ?_⟩
  · exact (verify_slack_c2 cfgSecretOnly reqGoodSig 1000 sigGood "1000"
      rfl (by decide) rfl (by decide) (by decide)).mpr ⟨1000, by decide, by decide, rfl⟩
  · intro h
    obtain ⟨t, _, _, h3⟩ := (verify_slack_c2 cfgSecretOnly reqFlipSig 1000
      ("w" ++ sigGood.drop 1) "1000" rfl (by decide) rfl (by decide) (by decide)).mp h
    exact absurd h3 (by decide)
  · intro h
    obtain ⟨t, _, _, h3⟩ := (verify_slack_c2 cfgSecretOnly reqFlipBody 1000
      sigGood "1000" rfl (by decide) rfl (by decide) (by decide)).mp h
    exact absurd h3 (by decide)
  · intro h
    obtain ⟨t, _, _, h3⟩ := (verify_slack_c2 cfgSecretOnly reqFlipTs 1000
      sigGood "1001" rfl (by decide) rfl (by decide) (by decide)).mp h
    exact absurd h3 (by decide)

/-- Counterexample to C5 as stated: the remainder returned for an
unrecognized first token is not the entire original text field — the
code strips surrounding whitespace first. -/
theorem parse_pj_and_text_c5_counterexample :
    parse_pj_and_text formPadded = ("", "notpj hello") ∧
    formPadded.text = some " notpj hello " ∧
    ("notpj hello" : String) ≠ " notpj hello " := by
  refine ⟨by decide, rfl, by decide⟩

/-- C5 (amended): for the expected command name, the whitespace-trimmed
text field is split on whitespace; when the first token fully matches
the project pattern, the result is that token with the remaining tokens
rejoined by single spaces; otherwise the project id is empty and the
remainder is the whole trimmed text; an empty (or all-whitespace) text
field yields two empty strings. -/
theorem parse_pj_and_text_c5 (form : Form)
    (hcmd : pyStrip (form.command.getD "") = "/gameprm") :
    (pyStrip (form.text.getD "") = "" → parse_pj_and_text form = ("", "")) ∧
    (pyStrip (form.text.getD "") ≠ "" →
      pjMatch ((pySplit (pyStrip (form.text.getD ""))).headD "") = true →
      parse_pj_and_text form =
        ((pySplit (pyStrip (form.text.getD ""))).headD "",
         pyJoin (pySplit (pyStrip (form.text.getD ""))).tail)) ∧
    (pyStrip (form.text.getD "") ≠ "" →
      pjMatch ((pySplit (pyStrip (form.text.getD ""))).headD "") = false →
      parse_pj_and_text form = ("", pyStrip (form.text.getD ""))) := by
  refine ⟨?_, ?_, ?_⟩
  · intro ht
    simp [parse_pj_and_text, hcmd, ht]
  · intro ht hm
    have hrest : (if (pySplit (pyStrip (form.text.getD ""))).length > 1
        then pyStrip (pyJoin (pySplit (pyStrip (form.text.getD ""))).tail) else "") =
        pyJoin (pySplit (pyStrip (form.text.getD ""))).tail := by
      by_cases hlen : (pySplit (pyStrip (form.text.getD ""))).length > 1
      · rw [if_pos hlen]
        apply pyStrip_pyJoin
        · intro t htt
          exact pySplit_sound _ t (List.mem_of_mem_tail htt)
        · apply List.ne_nil_of_length_pos
          rw [List.length_tail]
          omega
      · rw [if_neg hlen]
        rcases hps : pySplit (pyStrip (form.text.getD "")) with _ | ⟨a, l⟩
        · rfl
        · rcases l with _ | ⟨b, l2⟩
          · rfl
          · rw [hps] at hlen
            exact absurd (by simp) hlen
    rw [List.headD_eq_head?] at hm
    simp [parse_pj_and_text, hcmd, ht, hm, hrest]
  · intro ht hm
    rw [List.headD_eq_head?] at hm
    simp [parse_pj_and_text, hcmd, ht, hm]

/-- Witness for C5: the spec's example parses to project `pjshin` and
remainder `ローデータ完了`. -/
theorem parse_pj_and_text_c5_witness :
    parse_pj_and_text formPjshin = ("pjshin", "ローデータ完了") := by
  have h := (parse_pj_and_text_c5 formPjshin (by decide)).2.1 (by decide) (by decide)
  exact h.trans (by decide)

/-- Counterexample to C8 as stated: there is no synchronous strategy —
no configuration makes the handler wait for the trigger call, and a
non-2xx trigger outcome never yields a failure message with status and
body.  On a fully authorized request the handler replies with the fixed
acceptance text having spawned the background trigger; when that
trigger later returns 500 with body `"boom"`, the outcome is only
logged by `run_job`, and the user-visible reply contains neither the
status nor the body. -/
theorem dispatch_c8_counterexample :
    slack_handler cfgDispatch reqDispatch 0 =
      ({ body := acceptText "pjshin", status := 200 }, ["pjshin"]) ∧
    run_job cfgDispatch "pjshin" 500 "boom" =
      { logs := ["[run_job] POST https://r1-run.googleapis.com/apis/run.googleapis.com/v1/namespaces/proj/jobs/job-pjshin-daily:run -> 500",
                 "[run_job] Response: boom"],
        posts := ["https://r1-run.googleapis.com/apis/run.googleapis.com/v1/namespaces/proj/jobs/job-pjshin-daily:run"] } ∧
    containsSubstr (acceptText "pjshin") "500" = false ∧
    containsSubstr (acceptText "pjshin") "boom" = false := by
  refine ⟨by decide, by decide, by decide, by decide⟩

/-- C8 (amended): dispatch is fire-and-forget only.  After all guards
pass, the handler spawns the trigger thread and immediately returns the
fixed acceptance message — the response does not depend on the trigger
call's outcome, which `run_job` only logs: with a project namespace
configured it POSTs exactly once to the templated job-run URL, logs the
status, and logs the response body exactly when the status is 300 or
above; with no namespace it aborts with an error log and no POST.  No
retry happens in either case. -/
theorem dispatch_c8 (cfg : Config) (req : Request) (now : Int)
    (pj rest : String) (st st2 : Nat) (b b2 : String) :
    ((verify_slack cfg req now = .ok →
      is_channel_allowed cfg req.form = true →
      parse_pj_and_text req.form = (pj, rest) → pj ≠ "" →
      (cfg.ALLOWLIST_PJS = [] ∨ pj ∈ cfg.ALLOWLIST_PJS) →
      check_passphrase cfg pj rest = true →
      slack_handler cfg req now = ({ body := acceptText pj, status := 200 }, [pj]))) ∧
    ((run_job cfg pj st b).posts = (run_job cfg pj st2 b2).posts) ∧
    ((run_job cfg pj st b).posts.length ≤ 1) ∧
    (cfg.PROJECT_ID ≠ "" →
      run_job cfg pj st b =
        { logs := ["[run_job] POST " ++ runJobUrl cfg pj ++ " -> " ++ toString st] ++
                  (if st ≥ 300 then ["[run_job] Response: " ++ b] else []),
          posts := [runJobUrl cfg pj] }) ∧
    (cfg.PROJECT_ID = "" →
      run_job cfg pj st b =
        { logs := ["[ERROR] PROJECT_ID is empty; aborting run_job."], posts := [] }) := by
  refine ⟨?_, ?_, ?_, ?_, ?_⟩
  · intro hok hch hparse hpj hmem hcp
    have hne : ¬ pj = "" := hpj
    rcases hmem with hli | hmem
    · simp [slack_handler, hok, hch, hparse, hne, hli, hcp]
    · simp [slack_handler, hok, hch, hparse, hne, List.isEmpty_iff, hmem, hcp]
  · by_cases hp : cfg.PROJECT_ID = "" <;> simp [run_job, hp]
  · by_cases hp : cfg.PROJECT_ID = "" <;> simp [run_job, hp]
  · intro hp
    simp [run_job, hp]
  · intro hp
    simp [run_job, hp]

/-- Witness for C8: the authorized request is acknowledged with the
acceptance text and exactly one spawned trigger; `run_job` on a 2xx
outcome logs one line and POSTs once to the resolved URL. -/
theorem dispatch_c8_witness :
    slack_handler cfgDispatch reqDispatch 5 =
      ({ body := acceptText "pjshin", status := 200 }, ["pjshin"]) ∧
    run_job cfgDispatch "pjshin" 200 "ok" =
      { logs := ["[run_job] POST " ++ runJobUrl cfgDispatch "pjshin" ++ " -> 200"],
        posts := [runJobUrl cfgDispatch "pjshin"] } := by
  have h := dispatch_c8 cfgDispatch reqDispatch 5 "pjshin" "go" 200 200 "ok" "ok"
  refine ⟨h.1 (by decide) (by decide) (by decide) (by decide) (Or.inl (by decide)) (by decide), ?_⟩
  have h4 := h.2.2.2.1 (by decide)
  simpa using h4

end AppPy
